import Mathlib

/-!
Shallow embedding of the firecracker-shim core (VM lifecycle manager, VM pool,
snapshot manager, agent RPC client, shim task service) and proofs about it.

Go pointers are rendered as values threaded explicitly; Go maps become
association lists (insert overwrites, delete removes the key); `time.Time`
becomes a `Nat` tick passed in as `now`; fallible calls return `Option String`
(the error) or `Except String`.  External effects (machine start, vsock dial,
agent answers) are decided by explicit environment records so every function
stays executable.
-/

namespace FCShim

/-- Association-list insert mirroring Go map assignment: the new binding
replaces any existing binding for the key. -/
def mapSet {α : Type} (m : List (String × α)) (k : String) (v : α) : List (String × α) :=
  (k, v) :: m.filter (fun p => p.1 != k)

/-- Association-list delete mirroring Go `delete(m, k)`. -/
def mapDel {α : Type} (m : List (String × α)) (k : String) : List (String × α) :=
  m.filter (fun p => p.1 != k)

/-- Association-list lookup mirroring Go map read. -/
def mapGet {α : Type} (m : List (String × α)) (k : String) : Option α :=
  m.lookup k

/-- `SandboxState` from pkg/domain/types.go. -/
inductive SandboxState where
  | pending
  | ready
  | stopped
deriving Repr, DecidableEq

/-- `DriveConfig` from pkg/domain/types.go. -/
structure DriveConfig where
  driveID : String
  pathOnHost : String
  isReadOnly : Bool
  isRoot : Bool
  cacheType : String
deriving Repr, DecidableEq

def zeroDrive : DriveConfig :=
  { driveID := "", pathOnHost := "", isReadOnly := false, isRoot := false, cacheType := "" }

/-- `VMConfig` from pkg/domain/types.go (the fields the modelled code reads). -/
structure VMConfig where
  vcpuCount : Int
  memoryMB : Int
  smtEnabled : Bool
  kernelPath : String
  kernelArgs : String
  rootDrive : DriveConfig
  networkMode : String
  vsockEnabled : Bool
deriving Repr, DecidableEq

/-- `domain.DefaultVMConfig`. -/
def defaultVMConfig : VMConfig :=
  { vcpuCount := 1
    memoryMB := 128
    smtEnabled := false
    kernelPath := ""
    kernelArgs := "console=ttyS0 reboot=k panic=1 pci=off quiet"
    rootDrive := zeroDrive
    networkMode := "cni"
    vsockEnabled := true }

/-- `domain.Sandbox` (the fields the modelled code reads or writes).  `hasVM`
stands for `Sandbox.VM != nil`, `hasAgentConn` for `Sandbox.AgentConn != nil`,
and `containers` keeps only the container ids since the modelled code merely
creates or clears the map. -/
structure Sandbox where
  id : String
  state : SandboxState
  hasVM : Bool
  vmConfig : VMConfig
  pid : Int
  vsockCID : Nat
  vsockPath : String
  hasAgentConn : Bool
  containers : List String
  createdAt : Nat
  startedAt : Nat
  finishedAt : Nat
  pooledAt : Nat
  fromPool : Bool
deriving Repr, DecidableEq

/-- `domain.NewSandbox`: fresh sandbox in state Pending with empty container
map and `CreatedAt = now`; all other fields are Go zero values. -/
def newSandbox (id : String) (now : Nat) : Sandbox :=
  { id := id
    state := .pending
    hasVM := false
    vmConfig :=
      { vcpuCount := 0, memoryMB := 0, smtEnabled := false, kernelPath := ""
        kernelArgs := "", rootDrive := zeroDrive, networkMode := "", vsockEnabled := false }
    pid := 0
    vsockCID := 0
    vsockPath := ""
    hasAgentConn := false
    containers := []
    createdAt := now
    startedAt := 0
    finishedAt := 0
    pooledAt := 0
    fromPool := false }

/-- `vm.ManagerConfig` (the fields the modelled code reads). -/
structure ManagerConfig where
  firecrackerBinary : String
  runtimeDir : String
  defaultKernelPath : String
  defaultKernelArgs : String
deriving Repr, DecidableEq

/-- `vm.DefaultManagerConfig`. -/
def defaultManagerConfig : ManagerConfig :=
  { firecrackerBinary := "/usr/bin/firecracker"
    runtimeDir := "/run/fc-cri"
    defaultKernelPath := "/var/lib/fc-cri/vmlinux"
    defaultKernelArgs := "console=ttyS0 reboot=k panic=1 pci=off quiet" }

/-- The mutable state of `vm.Manager`: the sandbox index and the CID counter
(which `NewManager` starts at 3). -/
structure ManagerState where
  sandboxes : List (String × Sandbox)
  cidCounter : Nat
deriving Repr, DecidableEq

def initialManagerState : ManagerState :=
  { sandboxes := [], cidCounter := 3 }

/-- Environment for one `CreateVM` (or snapshot restore) call: the id that
`generateID` produces, the VMM pid reported after start, and whether
`firecracker.NewMachine` plus `machine.Start` succeed. -/
structure CreateEnv where
  newID : String
  pid : Int
  startOk : Bool
deriving Repr, DecidableEq

/-- `Manager.CreateVM`: allocate a CID (consumed even when the machine fails
to start), apply kernel defaults, start the machine, and on success register
the Ready sandbox in the index. -/
def createVM (env : CreateEnv) (now : Nat) (mc : ManagerConfig)
    (m : ManagerState) (config : VMConfig) : ManagerState × Option Sandbox :=
  let sandboxID := env.newID
  let s0 := newSandbox sandboxID now
  let cid := m.cidCounter
  let m1 : ManagerState := { m with cidCounter := m.cidCounter + 1 }
  let vsockPath := mc.runtimeDir ++ "/" ++ sandboxID ++ "/vsock.sock"
  let s1 := { s0 with vsockCID := cid, vsockPath := vsockPath }
  let config1 :=
    { config with
      kernelPath := if config.kernelPath = "" then mc.defaultKernelPath else config.kernelPath
      kernelArgs := if config.kernelArgs = "" then mc.defaultKernelArgs else config.kernelArgs }
  if env.startOk then
    let s2 :=
      { s1 with hasVM := true, vmConfig := config1, pid := env.pid
                state := .ready, startedAt := now }
    ({ m1 with sandboxes := mapSet m1.sandboxes sandboxID s2 }, some s2)
  else
    (m1, none)

/-- `Manager.StopVM`: error when the sandbox has no VM; otherwise attempt
graceful shutdown (forcing on failure, which changes no modelled state), wait
for exit, set state Stopped and record `FinishedAt = now`; returns nil. -/
def stopVM (gracefulOk : Bool) (now : Nat) (s : Sandbox) : Sandbox × Option String :=
  if s.hasVM then
    let _ := gracefulOk
    ({ s with state := .stopped, finishedAt := now }, none)
  else
    (s, some ("sandbox " ++ s.id ++ " has no VM"))

/-- `Manager.DestroyVM`: stop the VM when Ready (errors only logged), close
the agent connection when open, remove the runtime directory (errors only
logged), drop the sandbox from the index; always returns nil. -/
def destroyVM (gracefulOk : Bool) (now : Nat) (m : ManagerState) (s : Sandbox) :
    ManagerState × Sandbox × Option String :=
  let s1 := if s.state = .ready then (stopVM gracefulOk now s).1 else s
  let s2 := { s1 with hasAgentConn := false }
  ({ m with sandboxes := mapDel m.sandboxes s.id }, s2, none)

/-- `vm.PoolConfig` (the fields the modelled code reads).  `maxIdleTime` is in
the same ticks as `now`. -/
structure PoolConfig where
  maxSize : Nat
  minSize : Nat
  maxIdleTime : Nat
deriving Repr, DecidableEq

/-- The mutable state of `vm.Pool`: the bounded ready queue (a channel of
capacity `maxSize`, head = next receive), the in-use map, and the counters. -/
structure PoolState where
  available : List Sandbox
  inUse : List (String × Sandbox)
  totalServed : Nat
  poolHits : Nat
  poolMisses : Nat
deriving Repr, DecidableEq

def initialPoolState : PoolState :=
  { available := [], inUse := [], totalServed := 0, poolHits := 0, poolMisses := 0 }

/-- `domain.PoolStats` as produced by `Pool.Stats`. -/
structure PoolStats where
  available : Nat
  inUse : Nat
  maxSize : Nat
  totalServed : Nat
  poolHits : Nat
  poolMisses : Nat
deriving Repr, DecidableEq

/-- `Pool.Stats`. -/
def stats (pc : PoolConfig) (p : PoolState) : PoolStats :=
  { available := p.available.length
    inUse := p.inUse.length
    maxSize := pc.maxSize
    totalServed := p.totalServed
    poolHits := p.poolHits
    poolMisses := p.poolMisses }

/-- `Pool.customizeVM`: overwrites the stored VMConfig and returns nil. -/
def customizeVM (s : Sandbox) (config : VMConfig) : Sandbox × Option String :=
  ({ s with vmConfig := config }, none)

/-- `Pool.resetVM`: clears the container map and returns nil. -/
def resetVM (s : Sandbox) : Sandbox × Option String :=
  ({ s with containers := [] }, none)

/-- `Pool.createFresh`: create a VM via the manager and track it in-use. -/
def createFresh (env : CreateEnv) (now : Nat) (mc : ManagerConfig)
    (p : PoolState) (m : ManagerState) (config : VMConfig) :
    PoolState × ManagerState × Except String Sandbox :=
  match createVM env now mc m config with
  | (m1, none) => (p, m1, .error "failed to start machine")
  | (m1, some s) => ({ p with inUse := mapSet p.inUse s.id s }, m1, .ok s)

/-- Which branch of `Pool.Acquire` produced the result. -/
inductive AcquirePath where
  | hit
  | hitCustomizeFailed
  | miss
deriving Repr, DecidableEq

/-- `Pool.Acquire`: bump total-served; non-blocking receive from the ready
queue.  On hit: mark `FromPool`, move to in-use, customize (the in-use entry
aliases the returned object, so it sees the customization); on customize
failure destroy and fall through to a fresh create.  On miss: fresh create. -/
def acquire (env : CreateEnv) (gracefulOk : Bool) (now : Nat) (mc : ManagerConfig)
    (pc : PoolConfig) (p : PoolState) (m : ManagerState) (config : VMConfig) :
    PoolState × ManagerState × Except String Sandbox × AcquirePath :=
  let _ := pc
  let p0 : PoolState := { p with totalServed := p.totalServed + 1 }
  match p0.available with
  | sandbox :: rest =>
    let p1 : PoolState := { p0 with available := rest, poolHits := p0.poolHits + 1 }
    let s1 := { sandbox with fromPool := true }
    let p2 : PoolState := { p1 with inUse := mapSet p1.inUse s1.id s1 }
    match customizeVM s1 config with
    | (s2, none) =>
      ({ p2 with inUse := mapSet p2.inUse s2.id s2 }, m, .ok s2, .hit)
    | (s2, some _) =>
      let dm := destroyVM gracefulOk now m s2
      let fr := createFresh env now mc p2 dm.1 config
      (fr.1, fr.2.1, fr.2.2, .hitCustomizeFailed)
  | [] =>
    let p1 : PoolState := { p0 with poolMisses := p0.poolMisses + 1 }
    let fr := createFresh env now mc p1 m config
    (fr.1, fr.2.1, fr.2.2, .miss)

/-- Which branch of `Pool.Release` ran. -/
inductive ReleasePath where
  | destroyedFullOrOld
  | resetFailedDestroyed
  | returnedToPool
  | destroyedQueueFull
deriving Repr, DecidableEq

/-- `Pool.Release`: drop from in-use; destroy when the queue is full or the VM
exceeded MaxIdleTime; otherwise reset (destroying on reset failure), stamp
`PooledAt = now` and enqueue, destroying if the send would block. -/
def release (gracefulOk : Bool) (now : Nat) (pc : PoolConfig)
    (p : PoolState) (m : ManagerState) (s : Sandbox) :
    PoolState × ManagerState × Option String × ReleasePath :=
  let p0 : PoolState := { p with inUse := mapDel p.inUse s.id }
  let poolSize := p0.available.length
  let vmAge := now - s.createdAt
  if poolSize ≥ pc.maxSize ∨ vmAge > pc.maxIdleTime then
    let dm := destroyVM gracefulOk now m s
    (p0, dm.1, dm.2.2, .destroyedFullOrOld)
  else
    match resetVM s with
    | (s1, some _) =>
      let dm := destroyVM gracefulOk now m s1
      (p0, dm.1, dm.2.2, .resetFailedDestroyed)
    | (s1, none) =>
      let s2 := { s1 with pooledAt := now }
      if p0.available.length < pc.maxSize then
        ({ p0 with available := p0.available ++ [s2] }, m, none, .returnedToPool)
      else
        let dm := destroyVM gracefulOk now m s2
        ({ p0 with available := p0.available }, dm.1, none, .destroyedQueueFull)

/-- Fold a sequence of `Acquire` calls over the pool and manager state. -/
def runAcquires (gracefulOk : Bool) (now : Nat) (mc : ManagerConfig) (pc : PoolConfig)
    (config : VMConfig) : List CreateEnv → PoolState × ManagerState → PoolState × ManagerState
  | [], st => st
  | env :: rest, (p, m) =>
    let r := acquire env gracefulOk now mc pc p m config
    runAcquires gracefulOk now mc pc config rest (r.1, r.2.1)

/-- `vm.Snapshot` (the fields the modelled code reads). -/
structure Snapshot where
  name : String
  vmConfig : VMConfig
  createdAt : Nat
  sizeBytes : Nat
  isGolden : Bool
deriving Repr, DecidableEq

/-- The mutable state of `vm.SnapshotManager`: the snapshot map (rendered as a
list of snapshots whose names are the map keys) and the golden pointer. -/
structure SnapshotManagerState where
  enabled : Bool
  maxCached : Nat
  snapshots : List Snapshot
  goldenSnapshot : Option Snapshot
deriving Repr, DecidableEq

/-- `SnapshotManager.HasGoldenSnapshot`. -/
def hasGoldenSnapshot (sm : SnapshotManagerState) : Bool :=
  sm.goldenSnapshot.isSome

/-- The oldest-selection loop inside `SnapshotManager.Cleanup`: skip golden
snapshots and keep the entry with the strictly smallest `CreatedAt`. -/
def oldestNonGoldenAux (cur : Option Snapshot) : List Snapshot → Option Snapshot
  | [] => cur
  | s :: rest =>
    if s.isGolden then oldestNonGoldenAux cur rest
    else
      match cur with
      | none => oldestNonGoldenAux (some s) rest
      | some o =>
        if s.createdAt < o.createdAt then oldestNonGoldenAux (some s) rest
        else oldestNonGoldenAux cur rest

def oldestNonGolden (l : List Snapshot) : Option Snapshot :=
  oldestNonGoldenAux none l

/-- `SnapshotManager.Cleanup`: return immediately when the count is within
MaxCached; otherwise delete the oldest non-golden snapshot (when one exists)
and return nil. -/
def cleanup (sm : SnapshotManagerState) : SnapshotManagerState × Option String :=
  if sm.snapshots.length ≤ sm.maxCached then (sm, none)
  else
    match oldestNonGolden sm.snapshots with
    | none => (sm, none)
    | some o =>
      ({ sm with snapshots := sm.snapshots.filter (fun s => s.name != o.name) }, none)

/-- `SnapshotManager.DeleteSnapshot`: nil for an unknown name, rejected for
the golden snapshot, otherwise remove files and the map entry. -/
def deleteSnapshot (sm : SnapshotManagerState) (name : String) :
    SnapshotManagerState × Option String :=
  match sm.snapshots.find? (fun s => s.name == name) with
  | none => (sm, none)
  | some snap =>
    if snap.isGolden then (sm, some "cannot delete golden snapshot")
    else ({ sm with snapshots := sm.snapshots.filter (fun s => s.name != name) }, none)

/-- `SnapshotManager.RestoreFromSnapshot`: allocate an id and a CID from the
shared manager counter (consumed even on restore failure), boot the machine
from the memory and state files, and on success register a Ready sandbox
flagged `FromPool`. -/
def restoreFromSnapshot (env : CreateEnv) (now : Nat) (mc : ManagerConfig)
    (m : ManagerState) (enabled : Bool) (snap : Snapshot) :
    ManagerState × Except String Sandbox :=
  if enabled then
    let sandboxID := env.newID
    let cid := m.cidCounter
    let m1 : ManagerState := { m with cidCounter := m.cidCounter + 1 }
    if env.startOk then
      let s :=
        { newSandbox sandboxID now with
          hasVM := true
          vmConfig := snap.vmConfig
          vsockPath := mc.runtimeDir ++ "/" ++ sandboxID ++ "/vsock.sock"
          vsockCID := cid
          pid := env.pid
          state := .ready
          startedAt := now
          fromPool := true }
      ({ m1 with sandboxes := mapSet m1.sandboxes sandboxID s }, .ok s)
    else
      (m1, .error "failed to restore VM")
  else
    (m, .error "snapshots not enabled")

/-- `SnapshotManager.RestoreFromGolden`. -/
def restoreFromGolden (env : CreateEnv) (now : Nat) (mc : ManagerConfig)
    (m : ManagerState) (sm : SnapshotManagerState) : ManagerState × Except String Sandbox :=
  match sm.goldenSnapshot with
  | none => (m, .error "no golden snapshot available")
  | some g => restoreFromSnapshot env now mc m sm.enabled g

/-- Which branch of `SnapshotPool.Acquire` produced the result. -/
inductive SnapAcquirePath where
  | viaPool (p : AcquirePath)
  | restoredGolden
  | freshAfterRestoreFail
  | freshNoSnapshot
deriving Repr, DecidableEq

/-- Environment for one `SnapshotPool.Acquire` call: outcomes for the inner
`Pool.Acquire`, for a possible golden restore, and for the final fresh-create
fallback. -/
structure SnapAcquireEnv where
  poolEnv : CreateEnv
  restoreEnv : CreateEnv
  fallbackEnv : CreateEnv
  gracefulOk : Bool
deriving Repr, DecidableEq

/-- `SnapshotPool.Acquire`: call `Pool.Acquire` first and return its result
when it reports no error; only when it errs consult the snapshot manager
(restoring from golden and customizing), falling back to `createFresh`. -/
def snapshotAcquire (env : SnapAcquireEnv) (now : Nat) (mc : ManagerConfig)
    (pc : PoolConfig) (p : PoolState) (m : ManagerState)
    (smOpt : Option SnapshotManagerState) (config : VMConfig) :
    PoolState × ManagerState × Except String Sandbox × SnapAcquirePath :=
  let a := acquire env.poolEnv env.gracefulOk now mc pc p m config
  match a.2.2.1 with
  | .ok s => (a.1, a.2.1, .ok s, .viaPool a.2.2.2)
  | .error _ =>
    match smOpt with
    | some sm =>
      if hasGoldenSnapshot sm then
        match restoreFromGolden env.restoreEnv now mc a.2.1 sm with
        | (m2, .ok s) =>
          let c := customizeVM s config
          (a.1, m2, .ok c.1, .restoredGolden)
        | (m2, .error _) =>
          let fr := createFresh env.fallbackEnv now mc a.1 m2 config
          (fr.1, fr.2.1, fr.2.2, .freshAfterRestoreFail)
      else
        let fr := createFresh env.fallbackEnv now mc a.1 a.2.1 config
        (fr.1, fr.2.1, fr.2.2, .freshNoSnapshot)
    | none =>
      let fr := createFresh env.fallbackEnv now mc a.1 a.2.1 config
      (fr.1, fr.2.1, fr.2.2, .freshNoSnapshot)

/-- JSON values as they appear in the agent protocol params and results
(numbers decode to float64 in Go; the modelled code only ever reads integral
values, so they are carried as `Int`). -/
inductive JValue where
  | s (v : String)
  | n (v : Int)
  | b (v : Bool)
deriving Repr, DecidableEq

/-- `agent.Request`: the JSON-RPC request frame.  The id is zero at
construction; `Client.call` assigns it from the atomic counter. -/
structure Request where
  id : Nat
  method : String
  params : List (String × JValue)
deriving Repr, DecidableEq

/-- `agent.ResponseError`. -/
structure RpcError where
  code : Int
  message : String
deriving Repr, DecidableEq

/-- The dynamic `Response.Result` field: absent, a JSON object, or some other
JSON value (on which the map type assertion fails). -/
inductive JResult where
  | absent
  | obj (kvs : List (String × JValue))
  | other
deriving Repr, DecidableEq

/-- `agent.Response`. -/
structure Response where
  id : Nat
  result : JResult
  error : Option RpcError
deriving Repr, DecidableEq

/-- The request `Client.StopContainer` builds: method `stop_container`,
params `id` and `timeout` where the timeout is `int(timeout.Seconds())`
(the duration is carried here in nanoseconds). -/
def stopContainerRequest (containerID : String) (timeoutNs : Nat) : Request :=
  { id := 0
    method := "stop_container"
    params := [("id", .s containerID), ("timeout", .n (Int.ofNat (timeoutNs / 1000000000)))] }

/-- The request `Client.StartContainer` builds. -/
def startContainerRequest (containerID : String) : Request :=
  { id := 0
    method := "start_container"
    params := [("id", .s containerID)] }

/-- The Go comma-ok float64 assertion: a missing key or a non-number value
yields the zero value 0. -/
def numOrZero (v : Option JValue) : Int :=
  match v with
  | some (.n x) => x
  | _ => 0

/-- The response handling of `Client.StartContainer`: RPC errors surface as
errors, a non-object result is `invalid response format`, and the pid is read
with a comma-ok assertion that silently yields 0 when absent. -/
def startContainerParse (resp : Response) : Except String Int :=
  match resp.error with
  | some e => .error ("start_container failed: " ++ e.message)
  | none =>
    match resp.result with
    | .obj kvs => .ok (numOrZero (mapGet kvs "pid"))
    | _ => .error "invalid response format"

/-- The ping loop of `Client.waitForReady`: up to 30 attempts, sleeping 100 ms
after every failed attempt; `answers i` says whether attempt `i` got a healthy
reply.  Returns (success, pings sent, total ms slept). -/
def waitForReadyAux (answers : Nat → Bool) : Nat → Nat → Nat → Nat → Bool × Nat × Nat
  | 0, _, pings, slept => (false, pings, slept)
  | n + 1, i, pings, slept =>
    if answers i then (true, pings + 1, slept)
    else waitForReadyAux answers n (i + 1) (pings + 1) (slept + 100)

def waitForReady (answers : Nat → Bool) : Bool × Nat × Nat :=
  waitForReadyAux answers 30 0 0 0

/-- Environment for one `Client.Connect`: whether the vsock dial succeeds and
whether the unix-socket fallback dial succeeds. -/
structure ConnectEnv where
  vsockOk : Bool
  unixOk : Bool
deriving Repr, DecidableEq

/-- `Client.Connect`: dial vsock, falling back to the unix socket; then run
`waitForReady`, closing the connection and erring on exhaustion.  Returns
(error, pings sent, total ms slept in the ready loop). -/
def connectAgent (env : ConnectEnv) (answers : Nat → Bool) : Option String × Nat × Nat :=
  if env.vsockOk || env.unixOk then
    let w := waitForReady answers
    if w.1 then (none, w.2.1, w.2.2)
    else (some "agent not ready: timeout waiting for agent", w.2.1, w.2.2)
  else
    (some "failed to connect to vsock", 0, 0)

/-- `shim.processState` (the fields the modelled code reads or writes). -/
structure ProcessState where
  id : String
  containerID : String
  pid : Int
  exitStatus : Int
  exitedAtSet : Bool
deriving Repr, DecidableEq

/-- The per-shim state of `shim.Service` that `Create` touches. -/
structure ServiceState where
  pool : PoolState
  mgr : ManagerState
  sandbox : Option Sandbox
  processes : List (String × ProcessState)
  agentConnected : Bool
deriving Repr, DecidableEq

/-- Environment for one `Service.Create` call. -/
structure CreateCallEnv where
  acquireEnv : CreateEnv
  gracefulOk : Bool
  connectEnv : ConnectEnv
  answers : Nat → Bool
  createContainerOk : Bool

/-- The VMConfig `Service.Create` builds: the default config with the first
rootfs source as the root drive. -/
def createTaskVMConfig (rootfs : List String) : VMConfig :=
  match rootfs with
  | src :: _ =>
    { defaultVMConfig with
      rootDrive :=
        { driveID := "rootfs", pathOnHost := src, isRoot := true
          isReadOnly := false, cacheType := "" } }
  | [] => defaultVMConfig

/-- `Service.Create`: build the VMConfig, acquire from the pool, record the
sandbox, connect the agent, create the container, and register the init
process.  On connect failure the wrapped error is returned with no destroy or
release of the acquired sandbox. -/
def serviceCreate (env : CreateCallEnv) (now : Nat) (mc : ManagerConfig)
    (pc : PoolConfig) (st : ServiceState) (taskID : String)
    (rootfs : List String) : ServiceState × Except String Int :=
  let a := acquire env.acquireEnv env.gracefulOk now mc pc st.pool st.mgr
    (createTaskVMConfig rootfs)
  match a.2.2.1 with
  | .error e =>
    ({ st with pool := a.1, mgr := a.2.1 }, .error ("failed to acquire VM: " ++ e))
  | .ok sandbox =>
    let st1 : ServiceState := { st with pool := a.1, mgr := a.2.1, sandbox := some sandbox }
    match connectAgent env.connectEnv env.answers with
    | (some e, _, _) => (st1, .error ("failed to connect to agent: " ++ e))
    | (none, _, _) =>
      let st2 : ServiceState := { st1 with agentConnected := true }
      if env.createContainerOk then
        let proc : ProcessState :=
          { id := taskID, containerID := taskID, pid := 0, exitStatus := 0, exitedAtSet := false }
        ({ st2 with processes := mapSet st2.processes taskID proc }, .ok sandbox.pid)
      else
        (st2, .error "failed to create container")

/-- The pid-recording step of `Service.Start`: parse the agent response and
store the pid on the process. -/
def serviceStartRecord (proc : ProcessState) (resp : Response) :
    Except String (ProcessState × Int) :=
  match startContainerParse resp with
  | .error e => .error ("failed to start container: " ++ e)
  | .ok pid => .ok ({ proc with pid := pid }, pid)

/-- Success projection of an acquisition result. -/
def okValue (r : Except String Sandbox) : Option Sandbox :=
  match r with
  | .ok s => some s
  | .error _ => none

/-! Concrete sample values used by witnesses and counterexamples. -/

def samplePoolConfig : PoolConfig :=
  { maxSize := 10, minSize := 3, maxIdleTime := 300 }

def goldenSnap : Snapshot :=
  { name := "golden-base", vmConfig := defaultVMConfig, createdAt := 0
    sizeBytes := 0, isGolden := true }

def smWithGolden : SnapshotManagerState :=
  { enabled := true, maxCached := 10, snapshots := [goldenSnap]
    goldenSnapshot := some goldenSnap }

def snapA : Snapshot :=
  { name := "a", vmConfig := defaultVMConfig, createdAt := 1, sizeBytes := 0, isGolden := false }

def snapB : Snapshot :=
  { name := "b", vmConfig := defaultVMConfig, createdAt := 2, sizeBytes := 0, isGolden := false }

def snapC : Snapshot :=
  { name := "c", vmConfig := defaultVMConfig, createdAt := 3, sizeBytes := 0, isGolden := false }

/-- A snapshot manager holding three non-golden snapshots with MaxCached 1. -/
def smOverfull : SnapshotManagerState :=
  { enabled := true, maxCached := 1, snapshots := [snapA, snapB, snapC], goldenSnapshot := none }

/-- A running sandbox with a live VMM. -/
def runningSandbox : Sandbox :=
  { newSandbox "fc-run" 0 with hasVM := true, state := .ready }

def sampleProc : ProcessState :=
  { id := "task-1", containerID := "task-1", pid := 0, exitStatus := 0, exitedAtSet := false }

/-- A success response whose result object has no pid field. -/
def pidlessResponse : Response :=
  { id := 1, result := .obj [("status", .s "ok")], error := none }

def freshServiceState : ServiceState :=
  { pool := initialPoolState, mgr := initialManagerState, sandbox := none
    processes := [], agentConnected := false }

/-- Acquisition environment: pool miss with a working lifecycle manager. -/
def envMissFresh : SnapAcquireEnv :=
  { poolEnv := { newID := "fc-fresh", pid := 7, startOk := true }
    restoreEnv := { newID := "fc-snap-1", pid := 8, startOk := true }
    fallbackEnv := { newID := "fc-fb", pid := 9, startOk := true }
    gracefulOk := true }

/-- Acquisition environment: the fresh create fails, the golden restore
succeeds. -/
def envRestorePath : SnapAcquireEnv :=
  { poolEnv := { newID := "fc-fresh", pid := 7, startOk := false }
    restoreEnv := { newID := "fc-snap-1", pid := 8, startOk := true }
    fallbackEnv := { newID := "fc-fb", pid := 9, startOk := true }
    gracefulOk := true }

/-- Create-call environment: acquire succeeds, the connection is established,
and the agent never answers a ping. -/
def envAgentSilent : CreateCallEnv :=
  { acquireEnv := { newID := "fc-1", pid := 42, startOk := true }
    gracefulOk := true
    connectEnv := { vsockOk := true, unixOk := false }
    answers := fun _ => false
    createContainerOk := true }

end FCShim

namespace FCShim

/-! Helper lemmas shared by the claim proofs. -/

theorem mapGet_mapSet_self {α : Type} (m : List (String × α)) (k : String) (v : α) :
    mapGet (mapSet m k v) k = some v := by
  simp [mapGet, mapSet, List.lookup]

theorem mapGet_eq_none_of_not_mem_keys {α : Type} (m : List (String × α)) (k : String)
    (h : k ∉ m.map Prod.fst) : mapGet m k = none := by
  induction m with
  | nil => rfl
  | cons p rest ih =>
    simp only [List.map_cons, List.mem_cons, not_or] at h
    simp only [mapGet, List.lookup]
    have hk : (k == p.1) = false := beq_eq_false_iff_ne.mpr h.1
    rw [hk]
    exact ih h.2

theorem mapDel_of_absent {α : Type} (m : List (String × α)) (k : String)
    (h : mapGet m k = none) : mapDel m k = m := by
  induction m with
  | nil => rfl
  | cons p rest ih =>
    simp only [mapGet, List.lookup] at h
    by_cases hk : k = p.1
    · simp [hk] at h
    · have hk' : (k == p.1) = false := beq_eq_false_iff_ne.mpr hk
      rw [hk'] at h
      simp only [mapDel, List.filter]
      have hne : (p.1 != k) = true := bne_iff_ne.mpr (fun e => hk e.symm)
      rw [hne]
      have := ih h
      simp only [mapDel] at this
      rw [this]

end FCShim

namespace FCShim

/-! Claim theorems. -/

/-- C6 counterexample: a second `StopVM` on an already-stopped sandbox is not
a no-op — it overwrites the finished-at timestamp with the current time. -/
theorem stopVM_second_call_changes_finishedAt :
    (stopVM true 2 (stopVM true 1 runningSandbox).1).1.finishedAt ≠
      (stopVM true 1 runningSandbox).1.finishedAt := by
  decide

/-- C6 (amended): a second `StopVM` on a sandbox with a VM returns without
error and leaves the state Stopped, but re-records finished-at at the time of
the second call. -/
theorem stopVM_repeat_behavior (g g2 : Bool) (t t2 : Nat) (s : Sandbox)
    (h : s.hasVM = true) :
    (stopVM g2 t2 (stopVM g t s).1).2 = none ∧
    (stopVM g2 t2 (stopVM g t s).1).1 =
      { (stopVM g t s).1 with finishedAt := t2 } := by
  simp [stopVM, h]

theorem stopVM_repeat_behavior_witness :
    (stopVM true 2 (stopVM true 1 runningSandbox).1).2 = none ∧
    (stopVM true 2 (stopVM true 1 runningSandbox).1).1 =
      { (stopVM true 1 runningSandbox).1 with finishedAt := 2 } :=
  stopVM_repeat_behavior true true 1 2 runningSandbox rfl

/-- C7 counterexample: the `stop_container` request carries no
`timeout_seconds` key; its parameter keys are `id` and `timeout`. -/
theorem stopContainer_no_timeout_seconds_key :
    (stopContainerRequest "c1" 30000000000).params.map Prod.fst = ["id", "timeout"] ∧
    mapGet (stopContainerRequest "c1" 30000000000).params "timeout_seconds" = none := by
  constructor <;> rfl

/-- C7 (amended): `StopContainer` sends method `stop_container` with params
`id` (the container id) and `timeout` (the timeout in whole seconds). -/
theorem stopContainer_wire_shape (c : String) (tNs : Nat) :
    (stopContainerRequest c tNs).method = "stop_container" ∧
    (stopContainerRequest c tNs).params =
      [("id", .s c), ("timeout", .n (Int.ofNat (tNs / 1000000000)))] :=
  ⟨rfl, rfl⟩

/-- C8: `customizeVM` and `resetVM` return nil on every input, so the
customize-failure fallback in `Acquire` and the reset-failure destroy branch
in `Release` are never taken. -/
theorem customize_reset_infallible (s s2 : Sandbox) (config : VMConfig)
    (env : CreateEnv) (g : Bool) (t : Nat) (mc : ManagerConfig) (pc : PoolConfig)
    (p : PoolState) (m : ManagerState) :
    (customizeVM s config).2 = none ∧ (resetVM s).2 = none ∧
    (acquire env g t mc pc p m config).2.2.2 ≠ AcquirePath.hitCustomizeFailed ∧
    (release g t pc p m s2).2.2.2 ≠ ReleasePath.resetFailedDestroyed := by
  refine ⟨rfl, rfl, ?_, ?_⟩
  · unfold acquire
    cases hp : p.available with
    | nil => simp [hp, customizeVM]
    | cons hd tl => simp [hp, customizeVM]
  · unfold release
    by_cases hcond :
        ({ p with inUse := mapDel p.inUse s2.id } : PoolState).available.length ≥ pc.maxSize ∨
          t - s2.createdAt > pc.maxIdleTime
    · simp [hcond]
    · simp only [hcond, if_false, resetVM]
      by_cases hlen :
          ({ p with inUse := mapDel p.inUse s2.id } : PoolState).available.length < pc.maxSize
      · simp [hlen]
      · simp [hlen]

/-- C9: `DestroyVM` returns nil for every sandbox in every state, and on a
sandbox absent from the manager's index it leaves the index unchanged. -/
theorem destroyVM_never_fails (g : Bool) (t : Nat) (m : ManagerState) (s : Sandbox) :
    (destroyVM g t m s).2.2 = none ∧
    (mapGet m.sandboxes s.id = none → (destroyVM g t m s).1 = m) := by
  constructor
  · rfl
  · intro h
    unfold destroyVM
    simp only
    rw [mapDel_of_absent m.sandboxes s.id h]

theorem destroyVM_never_fails_witness :
    (destroyVM true 5 initialManagerState runningSandbox).2.2 = none ∧
    (destroyVM true 5 initialManagerState runningSandbox).1 = initialManagerState :=
  ⟨(destroyVM_never_fails true 5 initialManagerState runningSandbox).1,
   (destroyVM_never_fails true 5 initialManagerState runningSandbox).2 rfl⟩

/-- C10: a success response whose result object lacks a numeric pid field
makes `StartContainer` return pid 0 with no error, and the shim records pid 0
on the process. -/
theorem startContainer_missing_pid_zero (proc : ProcessState) (resp : Response)
    (kvs : List (String × JValue)) (hres : resp.result = .obj kvs)
    (herr : resp.error = none)
    (hpid : ∀ x : Int, mapGet kvs "pid" ≠ some (.n x)) :
    serviceStartRecord proc resp = .ok ({ proc with pid := 0 }, 0) := by
  have hz : numOrZero (mapGet kvs "pid") = 0 := by
    unfold numOrZero
    cases h : mapGet kvs "pid" with
    | none => rfl
    | some v =>
      cases v with
      | s v => rfl
      | n x => exact absurd h (hpid x)
      | b v => rfl
  unfold serviceStartRecord startContainerParse
  rw [herr, hres]
  simp [hz]

theorem startContainer_missing_pid_zero_witness :
    serviceStartRecord sampleProc pidlessResponse = .ok ({ sampleProc with pid := 0 }, 0) :=
  startContainer_missing_pid_zero sampleProc pidlessResponse [("status", .s "ok")]
    rfl rfl (fun _ h => Option.noConfusion h)

end FCShim

namespace FCShim

theorem oldestNonGoldenAux_spec (l : List Snapshot) :
    ∀ (cur : Option Snapshot) (o : Snapshot),
      (∀ c, cur = some c → c.isGolden = false) →
      oldestNonGoldenAux cur l = some o →
      ((cur = some o ∨ o ∈ l) ∧ o.isGolden = false ∧
       (∀ c, cur = some c → o.createdAt ≤ c.createdAt) ∧
       (∀ s ∈ l, s.isGolden = false → o.createdAt ≤ s.createdAt)) := by
  induction l with
  | nil =>
    intro cur o hcur h
    simp only [oldestNonGoldenAux] at h
    refine ⟨Or.inl h, hcur o h, ?_, ?_⟩
    · intro c hc
      rw [h] at hc
      cases hc
      exact le_refl _
    · intro s hs
      cases hs
  | cons hd tl ih =>
    intro cur o hcur h
    simp only [oldestNonGoldenAux] at h
    by_cases hg : hd.isGolden = true
    · rw [if_pos hg] at h
      obtain ⟨hmem, hng, hcle, hall⟩ := ih cur o hcur h
      refine ⟨?_, hng, hcle, ?_⟩
      · rcases hmem with h1 | h1
        · exact Or.inl h1
        · exact Or.inr (List.mem_cons_of_mem _ h1)
      · intro s hs hsng
        rcases List.mem_cons.mp hs with rfl | hs'
        · exact absurd hg (by simp [hsng])
        · exact hall s hs' hsng
    · rw [if_neg hg] at h
      have hgf : hd.isGolden = false := by
        cases hb : hd.isGolden
        · rfl
        · exact absurd hb hg
      cases cur with
      | none =>
        have h' : oldestNonGoldenAux (some hd) tl = some o := h
        obtain ⟨hmem, hng, hcle, hall⟩ :=
          ih (some hd) o (fun c hc => by cases hc; exact hgf) h'
        refine ⟨?_, hng, ?_, ?_⟩
        · rcases hmem with h1 | h1
          · cases h1
            exact Or.inr (List.mem_cons_self _ _)
          · exact Or.inr (List.mem_cons_of_mem _ h1)
        · intro c hc
          cases hc
        · intro s hs hsng
          rcases List.mem_cons.mp hs with rfl | hs'
          · exact hcle s rfl
          · exact hall s hs' hsng
      | some c0 =>
        have hc0 : c0.isGolden = false := hcur c0 rfl
        have h2 : (if hd.createdAt < c0.createdAt then oldestNonGoldenAux (some hd) tl
            else oldestNonGoldenAux (some c0) tl) = some o := h
        by_cases hlt : hd.createdAt < c0.createdAt
        · rw [if_pos hlt] at h2
          obtain ⟨hmem, hng, hcle, hall⟩ :=
            ih (some hd) o (fun c hc => by cases hc; exact hgf) h2
          have hohd : o.createdAt ≤ hd.createdAt := hcle hd rfl
          refine ⟨?_, hng, ?_, ?_⟩
          · rcases hmem with h1 | h1
            · cases h1
              exact Or.inr (List.mem_cons_self _ _)
            · exact Or.inr (List.mem_cons_of_mem _ h1)
          · intro c hc
            cases hc
            exact le_of_lt (lt_of_le_of_lt hohd hlt)
          · intro s hs hsng
            rcases List.mem_cons.mp hs with rfl | hs'
            · exact hohd
            · exact hall s hs' hsng
        · rw [if_neg hlt] at h2
          obtain ⟨hmem, hng, hcle, hall⟩ :=
            ih (some c0) o (fun c hc => by cases hc; exact hc0) h2
          have hoc0 : o.createdAt ≤ c0.createdAt := hcle c0 rfl
          refine ⟨?_, hng, ?_, ?_⟩
          · rcases hmem with h1 | h1
            · exact Or.inl h1
            · exact Or.inr (List.mem_cons_of_mem _ h1)
          · intro c hc
            cases hc
            exact hoc0
          · intro s hs hsng
            rcases List.mem_cons.mp hs with rfl | hs'
            · exact le_trans hoc0 (le_of_not_lt hlt)
            · exact hall s hs' hsng

theorem oldestNonGolden_spec (l : List Snapshot) (o : Snapshot)
    (h : oldestNonGolden l = some o) :
    o ∈ l ∧ o.isGolden = false ∧
      ∀ s ∈ l, s.isGolden = false → o.createdAt ≤ s.createdAt := by
  obtain ⟨hmem, hng, _, hall⟩ :=
    oldestNonGoldenAux_spec l none o (fun c hc => by cases hc) h
  rcases hmem with h1 | h1
  · cases h1
  · exact ⟨h1, hng, hall⟩

theorem filter_out_name_length (l : List Snapshot) (o : Snapshot)
    (hnodup : (l.map Snapshot.name).Nodup) (ho : o ∈ l) :
    (l.filter (fun s => s.name != o.name)).length = l.length - 1 := by
  induction l with
  | nil => cases ho
  | cons hd tl ih =>
    rw [List.map_cons, List.nodup_cons] at hnodup
    rcases List.mem_cons.mp ho with h1 | hmem
    · subst h1
      simp only [List.filter]
      have hhd : (o.name != o.name) = false := by simp
      rw [hhd]
      have heq : tl.filter (fun s => s.name != o.name) = tl := by
        apply List.filter_eq_self.mpr
        intro a ha
        exact bne_iff_ne.mpr
          (fun e => hnodup.1 (e ▸ List.mem_map_of_mem Snapshot.name ha))
      rw [heq]
      simp
    · have hne : (hd.name != o.name) = true :=
        bne_iff_ne.mpr
          (fun e => hnodup.1 (e ▸ List.mem_map_of_mem Snapshot.name hmem))
      simp only [List.filter, hne]
      have htl := ih hnodup.2 hmem
      have hpos : 1 ≤ tl.length := by
        cases tl with
        | nil => cases hmem
        | cons a b => simp
      simp only [List.length_cons]
      omega

/-- C5 counterexample: with three non-golden snapshots and MaxCached 1, a
single `Cleanup` call leaves two snapshots — still above the limit. -/
theorem cleanup_single_call_leaves_excess :
    (cleanup smOverfull).1.snapshots.length = 2 ∧
    smOverfull.maxCached = 1 ∧
    ¬((cleanup smOverfull).1.snapshots.length ≤ smOverfull.maxCached) := by
  decide

/-- C5 (amended): when the snapshot count exceeds MaxCached, a single
`Cleanup` call returns nil and removes exactly one snapshot — the oldest
non-golden one; the count drops by one, not necessarily to MaxCached. -/
theorem cleanup_removes_one_oldest (sm : SnapshotManagerState) (o : Snapshot)
    (hnodup : (sm.snapshots.map Snapshot.name).Nodup)
    (hover : sm.maxCached < sm.snapshots.length)
    (ho : oldestNonGolden sm.snapshots = some o) :
    (cleanup sm).2 = none ∧
    o ∈ sm.snapshots ∧ o.isGolden = false ∧
    (∀ s ∈ sm.snapshots, s.isGolden = false → o.createdAt ≤ s.createdAt) ∧
    (cleanup sm).1.snapshots = sm.snapshots.filter (fun s => s.name != o.name) ∧
    (cleanup sm).1.snapshots.length = sm.snapshots.length - 1 := by
  obtain ⟨hmem, hng, hall⟩ := oldestNonGolden_spec sm.snapshots o ho
  have hnot : ¬(sm.snapshots.length ≤ sm.maxCached) := by omega
  refine ⟨?_, hmem, hng, hall, ?_, ?_⟩
  · unfold cleanup
    rw [if_neg hnot, ho]
  · unfold cleanup
    rw [if_neg hnot, ho]
  · unfold cleanup
    rw [if_neg hnot, ho]
    exact filter_out_name_length sm.snapshots o hnodup hmem

theorem cleanup_removes_one_oldest_witness :
    (cleanup smOverfull).2 = none ∧
    snapA ∈ smOverfull.snapshots ∧ snapA.isGolden = false ∧
    (∀ s ∈ smOverfull.snapshots, s.isGolden = false →
       snapA.createdAt ≤ s.createdAt) ∧
    (cleanup smOverfull).1.snapshots =
      smOverfull.snapshots.filter (fun s => s.name != snapA.name) ∧
    (cleanup smOverfull).1.snapshots.length = smOverfull.snapshots.length - 1 :=
  cleanup_removes_one_oldest smOverfull snapA (by decide) (by decide) (by decide)

end FCShim

namespace FCShim

theorem acquire_step_counters (env : CreateEnv) (g : Bool) (t : Nat)
    (mc : ManagerConfig) (pc : PoolConfig) (p : PoolState) (m : ManagerState)
    (config : VMConfig) :
    (acquire env g t mc pc p m config).1.totalServed = p.totalServed + 1 ∧
    (acquire env g t mc pc p m config).1.poolHits +
      (acquire env g t mc pc p m config).1.poolMisses =
      p.poolHits + p.poolMisses + 1 := by
  cases hp : p.available with
  | cons hd tl =>
    simp [acquire, hp, customizeVM]
    omega
  | nil =>
    cases hs : env.startOk with
    | true =>
      simp [acquire, hp, createFresh, createVM, hs]
      omega
    | false =>
      simp [acquire, hp, createFresh, createVM, hs]
      omega

theorem runAcquires_counters (g : Bool) (t : Nat) (mc : ManagerConfig)
    (pc : PoolConfig) (config : VMConfig) :
    ∀ (envs : List CreateEnv) (p : PoolState) (m : ManagerState),
      (runAcquires g t mc pc config envs (p, m)).1.totalServed =
        p.totalServed + envs.length ∧
      (runAcquires g t mc pc config envs (p, m)).1.poolHits +
        (runAcquires g t mc pc config envs (p, m)).1.poolMisses =
        p.poolHits + p.poolMisses + envs.length := by
  intro envs
  induction envs with
  | nil =>
    intro p m
    simp [runAcquires]
  | cons env rest ih =>
    intro p m
    simp only [runAcquires]
    obtain ⟨h1, h2⟩ := acquire_step_counters env g t mc pc p m config
    obtain ⟨h3, h4⟩ :=
      ih (acquire env g t mc pc p m config).1 (acquire env g t mc pc p m config).2.1
    constructor
    · rw [h3, h1]
      simp [List.length_cons]
      omega
    · rw [h4, h2]
      simp [List.length_cons]
      omega

/-- C4: over any sequence of `Acquire` calls the stats satisfy
`hits + misses = total_served`, total-served grows by the number of calls, and
each single `Acquire` bumps total-served exactly once. -/
theorem acquire_counter_invariant (g : Bool) (t : Nat) (mc : ManagerConfig)
    (pc : PoolConfig) (config : VMConfig) (envs : List CreateEnv)
    (p : PoolState) (m : ManagerState)
    (hinv : (stats pc p).poolHits + (stats pc p).poolMisses =
      (stats pc p).totalServed) :
    ((stats pc (runAcquires g t mc pc config envs (p, m)).1).poolHits +
        (stats pc (runAcquires g t mc pc config envs (p, m)).1).poolMisses =
        (stats pc (runAcquires g t mc pc config envs (p, m)).1).totalServed) ∧
    ((stats pc (runAcquires g t mc pc config envs (p, m)).1).totalServed =
        (stats pc p).totalServed + envs.length) ∧
    (∀ env : CreateEnv,
      (stats pc (acquire env g t mc pc p m config).1).totalServed =
        (stats pc p).totalServed + 1) := by
  obtain ⟨h1, h2⟩ := runAcquires_counters g t mc pc config envs p m
  simp only [stats] at hinv ⊢
  refine ⟨by omega, h1, ?_⟩
  intro env
  exact (acquire_step_counters env g t mc pc p m config).1

theorem acquire_counter_invariant_witness :
    ((stats samplePoolConfig (runAcquires true 5 defaultManagerConfig samplePoolConfig
        defaultVMConfig [⟨"fc-a", 7, true⟩, ⟨"fc-b", 8, false⟩]
        (initialPoolState, initialManagerState)).1).poolHits +
      (stats samplePoolConfig (runAcquires true 5 defaultManagerConfig samplePoolConfig
        defaultVMConfig [⟨"fc-a", 7, true⟩, ⟨"fc-b", 8, false⟩]
        (initialPoolState, initialManagerState)).1).poolMisses =
      (stats samplePoolConfig (runAcquires true 5 defaultManagerConfig samplePoolConfig
        defaultVMConfig [⟨"fc-a", 7, true⟩, ⟨"fc-b", 8, false⟩]
        (initialPoolState, initialManagerState)).1).totalServed) ∧
    ((stats samplePoolConfig (runAcquires true 5 defaultManagerConfig samplePoolConfig
        defaultVMConfig [⟨"fc-a", 7, true⟩, ⟨"fc-b", 8, false⟩]
        (initialPoolState, initialManagerState)).1).totalServed =
      (stats samplePoolConfig initialPoolState).totalServed + 2) ∧
    (∀ env : CreateEnv,
      (stats samplePoolConfig (acquire env true 5 defaultManagerConfig samplePoolConfig
          initialPoolState initialManagerState defaultVMConfig).1).totalServed =
        (stats samplePoolConfig initialPoolState).totalServed + 1) :=
  acquire_counter_invariant true 5 defaultManagerConfig samplePoolConfig defaultVMConfig
    [⟨"fc-a", 7, true⟩, ⟨"fc-b", 8, false⟩] initialPoolState initialManagerState rfl

end FCShim

namespace FCShim

/-- C1: with an empty ready queue, a golden snapshot available, and a working
lifecycle manager, `SnapshotPool.Acquire` answers from `Pool.Acquire`'s miss
branch — a freshly created VM with `FromPool = false` and `misses = 1` — and
never consults the snapshot manager (no restored sandbox is registered),
because `Pool.Acquire` returns no error on a miss. -/
theorem snapshotPool_miss_bypasses_golden :
    hasGoldenSnapshot smWithGolden = true ∧
    (snapshotAcquire envMissFresh 5 defaultManagerConfig samplePoolConfig
        initialPoolState initialManagerState (some smWithGolden) defaultVMConfig).2.2.2 =
      SnapAcquirePath.viaPool AcquirePath.miss ∧
    (okValue (snapshotAcquire envMissFresh 5 defaultManagerConfig samplePoolConfig
        initialPoolState initialManagerState (some smWithGolden) defaultVMConfig).2.2.1).map
      Sandbox.fromPool = some false ∧
    (snapshotAcquire envMissFresh 5 defaultManagerConfig samplePoolConfig
        initialPoolState initialManagerState (some smWithGolden) defaultVMConfig).1.poolMisses = 1 ∧
    (mapGet (snapshotAcquire envMissFresh 5 defaultManagerConfig samplePoolConfig
        initialPoolState initialManagerState (some smWithGolden) defaultVMConfig).2.1.sandboxes
      "fc-snap-1").isNone = true :=
  ⟨rfl, rfl, rfl, rfl, rfl⟩

/-- C2 counterexample: on the golden-restore path the returned Sandbox is not
in the pool's in-use map when `Acquire` returns. -/
theorem restoredGolden_sandbox_not_inUse :
    (snapshotAcquire envRestorePath 5 defaultManagerConfig samplePoolConfig
        initialPoolState initialManagerState (some smWithGolden) defaultVMConfig).2.2.2 =
      SnapAcquirePath.restoredGolden ∧
    (okValue (snapshotAcquire envRestorePath 5 defaultManagerConfig samplePoolConfig
        initialPoolState initialManagerState (some smWithGolden) defaultVMConfig).2.2.1).map
      (fun s => mapGet (snapshotAcquire envRestorePath 5 defaultManagerConfig samplePoolConfig
        initialPoolState initialManagerState (some smWithGolden) defaultVMConfig).1.inUse s.id) =
      some none :=
  ⟨rfl, rfl⟩

/-- C3 counterexample: when the agent never answers, `Service.Create` returns
the wrapped connect error but the acquired Sandbox is not destroyed — it is
still in the manager's index and the pool's in-use map, and still recorded as
the service's sandbox. -/
theorem create_connect_failure_leaves_sandbox_conc :
    (serviceCreate envAgentSilent 5 defaultManagerConfig samplePoolConfig
        freshServiceState "task-1" ["/img/a.ext4"]).2 =
      Except.error "failed to connect to agent: agent not ready: timeout waiting for agent" ∧
    (mapGet (serviceCreate envAgentSilent 5 defaultManagerConfig samplePoolConfig
        freshServiceState "task-1" ["/img/a.ext4"]).1.mgr.sandboxes "fc-1").isSome = true ∧
    (mapGet (serviceCreate envAgentSilent 5 defaultManagerConfig samplePoolConfig
        freshServiceState "task-1" ["/img/a.ext4"]).1.pool.inUse "fc-1").isSome = true ∧
    (serviceCreate envAgentSilent 5 defaultManagerConfig samplePoolConfig
        freshServiceState "task-1" ["/img/a.ext4"]).1.sandbox.isSome = true :=
  ⟨rfl, rfl, rfl, rfl⟩

end FCShim

namespace FCShim

theorem waitForReadyAux_all_false (answers : Nat → Bool)
    (h : ∀ i, answers i = false) :
    ∀ (n i pings slept : Nat),
      waitForReadyAux answers n i pings slept = (false, pings + n, slept + 100 * n) := by
  intro n
  induction n with
  | zero =>
    intro i pings slept
    simp [waitForReadyAux]
  | succ k ih =>
    intro i pings slept
    rw [waitForReadyAux, h i]
    simp only [Bool.false_eq_true, if_false]
    rw [ih (i + 1) (pings + 1) (slept + 100)]
    have e1 : pings + 1 + k = pings + (k + 1) := by omega
    have e2 : slept + 100 + 100 * k = slept + 100 * (k + 1) := by omega
    rw [e1, e2]

theorem connectAgent_all_false (env : ConnectEnv) (answers : Nat → Bool)
    (hconn : env.vsockOk = true ∨ env.unixOk = true)
    (h : ∀ i, answers i = false) :
    connectAgent env answers =
      (some "agent not ready: timeout waiting for agent", 30, 3000) := by
  have hw : waitForReady answers = (false, 30, 3000) := by
    unfold waitForReady
    rw [waitForReadyAux_all_false answers h 30 0 0 0]
  have hc : (env.vsockOk || env.unixOk) = true := by
    rcases hconn with h1 | h1 <;> simp [h1]
  simp [connectAgent, hc, hw]

/-- C3 (amended): when the connection is established but the agent never
answers, `Connect` probes with ping exactly 30 times at 100 ms intervals
(3000 ms total) and fails with the plain wrapped error `agent not ready:
timeout waiting for agent` (not a classified Unavailable error), and
`Service.Create` returns the wrapped error while the acquired Sandbox is NOT
destroyed: the service state keeps exactly the post-acquire pool and manager
state with the sandbox still recorded. -/
theorem create_connect_exhaustion_no_destroy (env : CreateCallEnv) (now : Nat)
    (mc : ManagerConfig) (pc : PoolConfig) (st : ServiceState) (taskID : String)
    (rootfs : List String) (s : Sandbox) (p2 : PoolState) (m2 : ManagerState)
    (path : AcquirePath)
    (hconn : env.connectEnv.vsockOk = true ∨ env.connectEnv.unixOk = true)
    (hans : ∀ i, env.answers i = false)
    (hacq : acquire env.acquireEnv env.gracefulOk now mc pc st.pool st.mgr
      (createTaskVMConfig rootfs) = (p2, m2, Except.ok s, path)) :
    connectAgent env.connectEnv env.answers =
      (some "agent not ready: timeout waiting for agent", 30, 3000) ∧
    serviceCreate env now mc pc st taskID rootfs =
      ({ st with pool := p2, mgr := m2, sandbox := some s },
        Except.error "failed to connect to agent: agent not ready: timeout waiting for agent") := by
  have hca := connectAgent_all_false env.connectEnv env.answers hconn hans
  refine ⟨hca, ?_⟩
  simp only [serviceCreate]
  rw [hacq, hca]
  rfl

end FCShim

namespace FCShim

theorem create_connect_exhaustion_no_destroy_witness :
    connectAgent envAgentSilent.connectEnv envAgentSilent.answers =
      (some "agent not ready: timeout waiting for agent", 30, 3000) ∧
    serviceCreate envAgentSilent 5 defaultManagerConfig samplePoolConfig
        freshServiceState "task-1" ["/img/a.ext4"] =
      ({ freshServiceState with
          pool := (acquire envAgentSilent.acquireEnv envAgentSilent.gracefulOk 5
            defaultManagerConfig samplePoolConfig freshServiceState.pool
            freshServiceState.mgr (createTaskVMConfig ["/img/a.ext4"])).1
          mgr := (acquire envAgentSilent.acquireEnv envAgentSilent.gracefulOk 5
            defaultManagerConfig samplePoolConfig freshServiceState.pool
            freshServiceState.mgr (createTaskVMConfig ["/img/a.ext4"])).2.1
          sandbox := some
            { id := "fc-1", state := .ready, hasVM := true
              vmConfig :=
                { vcpuCount := 1, memoryMB := 128, smtEnabled := false
                  kernelPath := "/var/lib/fc-cri/vmlinux"
                  kernelArgs := "console=ttyS0 reboot=k panic=1 pci=off quiet"
                  rootDrive :=
                    { driveID := "rootfs", pathOnHost := "/img/a.ext4"
                      isReadOnly := false, isRoot := true, cacheType := "" }
                  networkMode := "cni", vsockEnabled := true }
              pid := 42, vsockCID := 3
              vsockPath := "/run/fc-cri/fc-1/vsock.sock"
              hasAgentConn := false, containers := [], createdAt := 5
              startedAt := 5, finishedAt := 0, pooledAt := 0, fromPool := false } },
        Except.error "failed to connect to agent: agent not ready: timeout waiting for agent") :=
  create_connect_exhaustion_no_destroy envAgentSilent 5 defaultManagerConfig
    samplePoolConfig freshServiceState "task-1" ["/img/a.ext4"]
    { id := "fc-1", state := .ready, hasVM := true
      vmConfig :=
        { vcpuCount := 1, memoryMB := 128, smtEnabled := false
          kernelPath := "/var/lib/fc-cri/vmlinux"
          kernelArgs := "console=ttyS0 reboot=k panic=1 pci=off quiet"
          rootDrive :=
            { driveID := "rootfs", pathOnHost := "/img/a.ext4"
              isReadOnly := false, isRoot := true, cacheType := "" }
          networkMode := "cni", vsockEnabled := true }
      pid := 42, vsockCID := 3
      vsockPath := "/run/fc-cri/fc-1/vsock.sock"
      hasAgentConn := false, containers := [], createdAt := 5
      startedAt := 5, finishedAt := 0, pooledAt := 0, fromPool := false }
    (acquire envAgentSilent.acquireEnv envAgentSilent.gracefulOk 5
      defaultManagerConfig samplePoolConfig freshServiceState.pool
      freshServiceState.mgr (createTaskVMConfig ["/img/a.ext4"])).1
    (acquire envAgentSilent.acquireEnv envAgentSilent.gracefulOk 5
      defaultManagerConfig samplePoolConfig freshServiceState.pool
      freshServiceState.mgr (createTaskVMConfig ["/img/a.ext4"])).2.1
    (acquire envAgentSilent.acquireEnv envAgentSilent.gracefulOk 5
      defaultManagerConfig samplePoolConfig freshServiceState.pool
      freshServiceState.mgr (createTaskVMConfig ["/img/a.ext4"])).2.2.2
    (Or.inl rfl) (fun _ => rfl) rfl

end FCShim

namespace FCShim

/-- C2 (amended): on `Pool.Acquire`'s hit and miss paths the returned Sandbox
is in the in-use map and absent from the ready queue when the call returns;
but on `SnapshotPool.Acquire`'s golden-restore path the returned Sandbox is
not added to the in-use map at all. -/
theorem acquire_inUse_membership (env : CreateEnv) (g : Bool) (t : Nat)
    (mc : ManagerConfig) (pc : PoolConfig) (p : PoolState) (m : ManagerState)
    (config : VMConfig) (senv : SnapAcquireEnv) (smOpt : Option SnapshotManagerState)
    (hnodup : (p.available.map Sandbox.id).Nodup)
    (hfresh : senv.restoreEnv.newID ∉ p.inUse.map Prod.fst) :
    (∀ s p2 m2 path,
        acquire env g t mc pc p m config = (p2, m2, Except.ok s, path) →
        mapGet p2.inUse s.id = some s ∧ s.id ∉ p2.available.map Sandbox.id) ∧
    (∀ s p2 m2,
        snapshotAcquire senv t mc pc p m smOpt config =
          (p2, m2, Except.ok s, SnapAcquirePath.restoredGolden) →
        mapGet p2.inUse s.id = none) := by
  constructor
  · intro s p2 m2 path hacq
    cases hp : p.available with
    | cons hd tl =>
      rw [hp, List.map_cons, List.nodup_cons] at hnodup
      simp only [acquire, hp, customizeVM, Prod.mk.injEq, Except.ok.injEq] at hacq
      obtain ⟨hP, hM, hS, hPath⟩ := hacq
      subst hP
      subst hS
      constructor
      · exact mapGet_mapSet_self _ _ _
      · exact hnodup.1
    | nil =>
      cases hs : env.startOk with
      | false =>
        simp [acquire, hp, createFresh, createVM, hs] at hacq
      | true =>
        simp only [acquire, hp, createFresh, createVM, hs, if_true,
          Prod.mk.injEq, Except.ok.injEq] at hacq
        obtain ⟨hP, hM, hS, hPath⟩ := hacq
        subst hP
        subst hS
        constructor
        · exact mapGet_mapSet_self _ _ _
        · simp [hp]
  · intro s p2 m2 hsnap
    cases hp : p.available with
    | cons hd tl =>
      simp [snapshotAcquire, acquire, hp, customizeVM] at hsnap
    | nil =>
      cases hs : senv.poolEnv.startOk with
      | true =>
        simp [snapshotAcquire, acquire, hp, createFresh, createVM, hs] at hsnap
      | false =>
        cases smOpt with
        | none =>
          simp [snapshotAcquire, acquire, hp, createFresh, createVM, hs] at hsnap
        | some sm =>
          cases hg : sm.goldenSnapshot with
          | none =>
            simp [snapshotAcquire, acquire, hp, createFresh, createVM, hs,
              hasGoldenSnapshot, hg] at hsnap
          | some gold =>
            cases he : sm.enabled with
            | false =>
              simp [snapshotAcquire, acquire, hp, createFresh, createVM, hs,
                hasGoldenSnapshot, hg, restoreFromGolden, restoreFromSnapshot, he] at hsnap
            | true =>
              cases hr : senv.restoreEnv.startOk with
              | false =>
                simp [snapshotAcquire, acquire, hp, createFresh, createVM, hs,
                  hasGoldenSnapshot, hg, restoreFromGolden, restoreFromSnapshot,
                  he, hr] at hsnap
              | true =>
                simp [snapshotAcquire, acquire, hp, createFresh, createVM, hs,
                  hasGoldenSnapshot, hg, restoreFromGolden, restoreFromSnapshot,
                  he, hr, customizeVM] at hsnap
                obtain ⟨hP, hM, hS⟩ := hsnap
                subst hP
                subst hS
                exact mapGet_eq_none_of_not_mem_keys _ _ hfresh

end FCShim

namespace FCShim

theorem acquire_inUse_membership_witness :
    (∀ s p2 m2 path,
        acquire ⟨"fc-a", 7, true⟩ true 5 defaultManagerConfig samplePoolConfig
          initialPoolState initialManagerState defaultVMConfig =
          (p2, m2, Except.ok s, path) →
        mapGet p2.inUse s.id = some s ∧ s.id ∉ p2.available.map Sandbox.id) ∧
    (∀ s p2 m2,
        snapshotAcquire envRestorePath 5 defaultManagerConfig samplePoolConfig
          initialPoolState initialManagerState (some smWithGolden) defaultVMConfig =
          (p2, m2, Except.ok s, SnapAcquirePath.restoredGolden) →
        mapGet p2.inUse s.id = none) :=
  acquire_inUse_membership ⟨"fc-a", 7, true⟩ true 5 defaultManagerConfig
    samplePoolConfig initialPoolState initialManagerState defaultVMConfig
    envRestorePath (some smWithGolden)
    (by simp [initialPoolState]) (by simp [initialPoolState])

end FCShim
